import Mathlib

/-!
Verification of the display-control core of the backlightd daemon.

The development shallowly embeds the Rust sources:
  * src/clamped.rs — the tri-state ClampedValue wrapper;
  * src/scale.rs   — ScaleBuilder / BrightnessScale (f32 fields are modelled
    as exact rationals; the transcendental helpers f32::log2 and f32::powf are
    abstract function parameters, since no claim depends on their numerics);
  * src/main.rs    — Display, its control methods, and the dispatch functions
    (hardware reads/writes are modelled by an abstract environment, and every
    operation additionally returns the list of hardware actions it attempts);
  * src/lib.rs     — the nom command grammar, embedded over byte lists.

Machine-integer notes: usize is modelled as Nat with the Rust float-to-int
saturating cast made explicit (truncation toward zero, clamped to [0, 2^64-1]);
the i8 level field is modelled as Int (an i8 overflow aborts the program in
the debug profile and is unreachable in the claims checked here).
-/

namespace Backlightd

/-! ## src/clamped.rs -/

inductive ClampedValue (α : Type _) where
  | min (v : α)
  | max (v : α)
  | intermediate (v : α)
deriving DecidableEq

namespace ClampedValue

/-- Rust: ClampedValue::new(v, min, max): v >= max gives Max(max),
v <= min gives Min(min), otherwise Intermediate(v). -/
def new {α : Type _} [LinearOrder α] (v mn mx : α) : ClampedValue α :=
  if mx ≤ v then ClampedValue.max mx
  else if v ≤ mn then ClampedValue.min mn
  else ClampedValue.intermediate v

/-- Rust: ClampedValue::is_max. -/
def is_max {α : Type _} : ClampedValue α → Bool
  | .max _ => true
  | _ => false

/-- Rust: ClampedValue::is_min. -/
def is_min {α : Type _} : ClampedValue α → Bool
  | .min _ => true
  | _ => false

/-- Rust: ClampedValue::is_intermediate. -/
def is_intermediate {α : Type _} : ClampedValue α → Bool
  | .intermediate _ => true
  | _ => false

/-- Rust: ClampedValue::value (also the Deref impl): extract the payload. -/
def value {α : Type _} : ClampedValue α → α
  | .min v => v
  | .max v => v
  | .intermediate v => v

end ClampedValue

/-- C1, counterexample. The claim says Min(floor) is returned iff v ≤ floor,
for every floor ≤ ceiling.  At v = floor = ceiling = 0 the code returns
Max(0) (the v ≥ ceiling test fires first), yet v ≤ floor holds, so the
biconditional fails. -/
theorem c1_min_iff_fails_at_degenerate_bounds :
    ¬ (ClampedValue.new (0 : ℕ) 0 0 = ClampedValue.min 0 ↔ (0 : ℕ) ≤ 0) := by
  decide

/-- C1, amended. For floor ≤ ceiling: the result is Max(ceiling) iff
v ≥ ceiling; Min(floor) iff v ≤ floor and v < ceiling (the Max test takes
precedence when floor = ceiling ≤ v); Intermediate(v) iff floor < v < ceiling;
and value() returns ceiling when Max, floor when Min, v when Intermediate. -/
theorem c1_clamped_new_characterization {α : Type _} [LinearOrder α]
    (v lo hi : α) (_h : lo ≤ hi) :
    (ClampedValue.new v lo hi = ClampedValue.max hi ↔ hi ≤ v)
    ∧ (ClampedValue.new v lo hi = ClampedValue.min lo ↔ v ≤ lo ∧ v < hi)
    ∧ (ClampedValue.new v lo hi = ClampedValue.intermediate v ↔ lo < v ∧ v < hi)
    ∧ (ClampedValue.new v lo hi).value
        = (if hi ≤ v then hi else if v ≤ lo then lo else v) := by
  unfold ClampedValue.new
  split_ifs with h1 h2
  · have hnl : ¬ v < hi := not_lt.mpr h1
    simp [ClampedValue.value, h1, hnl]
  · have hvh : v < hi := lt_of_not_le h1
    have hnl : ¬ lo < v := not_lt.mpr h2
    simp [ClampedValue.value, h1, h2, hvh, hnl]
  · have hlv : lo < v := lt_of_not_le h2
    have hvh : v < hi := lt_of_not_le h1
    simp [ClampedValue.value, h1, h2, hlv, hvh]

/-- C1 witness: the amended characterization applied at v = 1, floor = 0,
ceiling = 2 over the naturals. -/
theorem c1_clamped_new_characterization_witness :
    (ClampedValue.new (1 : ℕ) 0 2 = ClampedValue.max 2 ↔ 2 ≤ 1)
    ∧ (ClampedValue.new (1 : ℕ) 0 2 = ClampedValue.min 0 ↔ 1 ≤ 0 ∧ 1 < 2)
    ∧ (ClampedValue.new (1 : ℕ) 0 2 = ClampedValue.intermediate 1 ↔ 0 < 1 ∧ 1 < 2)
    ∧ (ClampedValue.new (1 : ℕ) 0 2).value
        = (if 2 ≤ 1 then 2 else if 1 ≤ 0 then 0 else 1) :=
  c1_clamped_new_characterization 1 0 2 (by decide)

/-! ## src/scale.rs

f32 calibration fields are modelled as exact rationals.  The two
transcendental f32 helpers (f32::log2, used only to derive the exponential
step factor, and f32::powf, used only in the exponential branch of
value_for) are taken as abstract function parameters. -/

/-- Rust: const STEPS_IN_REFERENCE_RANGE: f32 = 9.0 (src/main.rs). -/
def STEPS_IN_REFERENCE_RANGE : ℚ := 9

/-- Rust: const DEFAULT_LEVEL: i8 = 4 (src/main.rs). -/
def DEFAULT_LEVEL : ℤ := 4

/-- Rust: usize::MAX (saturation bound of the f32-to-usize cast). -/
def USIZE_MAX : ℕ := 2 ^ 64 - 1

/-- Rust float-to-usize cast (`as usize`): truncate toward zero, saturate at
0 below and at usize::MAX above. -/
def f32ToUsize (q : ℚ) : ℕ := Min.min (⌊q⌋).toNat USIZE_MAX

inductive ScaleKind where
  | linear
  | exp2 (gamma : ℚ)
deriving DecidableEq

structure BrightnessScale where
  kind : ScaleKind
  idx_factor : ℚ
  max_value : ℕ
  min_value : ℕ
  ref_max : ℚ
  ref_min : ℚ
  level : ℤ
deriving DecidableEq

structure ScaleBuilder where
  kind : Option ScaleKind := none
  max_value : Option ℕ := none
  min_value : Option ℕ := none
  ref_max : Option ℕ := none
  ref_min : Option ℕ := none

/-- Rust: the modelled error enum of src/error.rs. -/
inductive Error where
  | badPath (p : String)
  | ioError
  | badParse
  | maxBrightnessRequired
  | noBacklightStatus
  | badConfiguration (s : String)
  | noConfigFile
deriving DecidableEq

namespace ScaleBuilder

/-- Rust: ScaleBuilder::linear_factor. -/
def linear_factor (ref_max ref_min : ℚ) : ℚ :=
  (ref_max - ref_min) / STEPS_IN_REFERENCE_RANGE

/-- Rust: ScaleBuilder::exp2_factor; log2 abstracts f32::log2. -/
def exp2_factor (log2 : ℚ → ℚ) (ref_max ref_min : ℚ) : ℚ :=
  let ref_max_exp := log2 ref_max
  let ref_min_exp := log2 ref_min
  let stops := ref_max_exp - ref_min_exp
  stops / STEPS_IN_REFERENCE_RANGE

/-- Rust: ScaleBuilder::idx_factor. -/
def idx_factor (log2 : ℚ → ℚ) (kind : ScaleKind) (ref_max ref_min : ℚ) : ℚ :=
  match kind with
  | .linear => linear_factor ref_max ref_min
  | .exp2 _ => exp2_factor log2 ref_max ref_min

/-- Rust: ScaleBuilder::make. -/
def make (log2 : ℚ → ℚ) (b : ScaleBuilder) : Except Error BrightnessScale :=
  match b.max_value with
  | none => .error .maxBrightnessRequired
  | some max_value =>
    let min_value := b.min_value.getD 0
    let ref_max : ℚ := (b.ref_max.map (fun x => (x : ℚ))).getD (max_value : ℚ)
    let ref_min : ℚ := (b.ref_min.map (fun x => (x : ℚ))).getD (min_value : ℚ)
    let kind := b.kind.getD .linear
    let idx_factor := ScaleBuilder.idx_factor log2 kind ref_max ref_min
    .ok { kind := kind, idx_factor := idx_factor, max_value := max_value,
          min_value := min_value, ref_max := ref_max, ref_min := ref_min,
          level := DEFAULT_LEVEL }

end ScaleBuilder

namespace BrightnessScale

/-- Rust: BrightnessScale::value_for; powf abstracts f32::powf. -/
def value_for (powf : ℚ → ℚ → ℚ) (s : BrightnessScale) (f : ℤ) : ClampedValue ℕ :=
  let fq : ℚ := (f : ℚ) * s.idx_factor
  let x : ℕ := f32ToUsize (match s.kind with
    | .linear => s.ref_max - fq
    | .exp2 gamma => s.ref_max / powf gamma fq)
  ClampedValue.new x s.min_value s.max_value

/-- Rust: BrightnessScale::get_brightness. -/
def get_brightness (powf : ℚ → ℚ → ℚ) (s : BrightnessScale) : ClampedValue ℕ :=
  s.value_for powf s.level

/-- Rust: BrightnessScale::up — mutates level and returns the fresh clamp;
modelled as (new state, returned value). -/
def up (powf : ℚ → ℚ → ℚ) (s : BrightnessScale) :
    BrightnessScale × ClampedValue ℕ :=
  let s' := { s with level := s.level - 1 }
  (s', s'.value_for powf s'.level)

/-- Rust: BrightnessScale::down. -/
def down (powf : ℚ → ℚ → ℚ) (s : BrightnessScale) :
    BrightnessScale × ClampedValue ℕ :=
  let s' := { s with level := s.level + 1 }
  (s', s'.value_for powf s'.level)

/-- Rust: BrightnessScale::set_level. -/
def set_level (powf : ℚ → ℚ → ℚ) (s : BrightnessScale) (value : ℤ) :
    BrightnessScale × ClampedValue ℕ :=
  let s' := { s with level := value }
  (s', s'.value_for powf s'.level)

/-- Iterated up (state component only). -/
def upN (powf : ℚ → ℚ → ℚ) : ℕ → BrightnessScale → BrightnessScale
  | 0, s => s
  | n + 1, s => upN powf n (s.up powf).1

/-- Iterated down (state component only). -/
def downN (powf : ℚ → ℚ → ℚ) : ℕ → BrightnessScale → BrightnessScale
  | 0, s => s
  | n + 1, s => downN powf n (s.down powf).1

end BrightnessScale

/-! ### Concrete instantiations used by witnesses and numeric claims -/

/-- Arbitrary closed stand-in for the abstract f32::log2. -/
def log2zero : ℚ → ℚ := fun _ => 0

/-- Arbitrary closed stand-in for the abstract f32::powf. -/
def powfone : ℚ → ℚ → ℚ := fun _ _ => 1

/-- Builder holding only the mandatory ceiling, set to 100. -/
def b100 : ScaleBuilder := { max_value := some 100 }

/-- Builder with no field set. -/
def bEmpty : ScaleBuilder := {}

/-- The scale produced by b100: Linear, device bounds [0,100], reference
bounds [0,100], level at the default 4. -/
def s100 : BrightnessScale :=
  { kind := .linear,
    idx_factor := ((100 : ℚ) - 0) / STEPS_IN_REFERENCE_RANGE,
    max_value := 100, min_value := 0, ref_max := 100, ref_min := 0,
    level := DEFAULT_LEVEL }

/-- C6: make() fails with the ceiling-required error iff max_value is unset;
when set, the unset optional fields default to min_value = 0,
ref_max = max_value, ref_min = min_value, kind = Linear. -/
theorem c6_make_defaults (log2 : ℚ → ℚ) (b : ScaleBuilder) :
    (b.max_value = none →
        b.make log2 = Except.error Error.maxBrightnessRequired)
    ∧ (∀ m, b.max_value = some m →
        ∃ s, b.make log2 = Except.ok s
          ∧ s.max_value = m
          ∧ (b.min_value = none → s.min_value = 0)
          ∧ (b.ref_max = none → s.ref_max = (s.max_value : ℚ))
          ∧ (b.ref_min = none → s.ref_min = (s.min_value : ℚ))
          ∧ (b.kind = none → s.kind = ScaleKind.linear)) := by
  constructor
  · intro h
    simp [ScaleBuilder.make, h]
  · intro m hm
    unfold ScaleBuilder.make
    rw [hm]
    refine ⟨_, rfl, rfl, ?_, ?_, ?_, ?_⟩
    · intro h0
      simp [h0]
    · intro h0
      simp [h0]
    · intro h0
      simp [h0]
    · intro h0
      simp [h0]

/-- C6 witness: the empty builder fails with the ceiling-required error, and
a builder with only max_value = 100 succeeds with all defaults. -/
theorem c6_make_defaults_witness :
    (ScaleBuilder.make log2zero bEmpty
        = Except.error Error.maxBrightnessRequired)
    ∧ (∃ s, ScaleBuilder.make log2zero b100 = Except.ok s
        ∧ s.max_value = 100
        ∧ (b100.min_value = none → s.min_value = 0)
        ∧ (b100.ref_max = none → s.ref_max = (s.max_value : ℚ))
        ∧ (b100.ref_min = none → s.ref_min = (s.min_value : ℚ))
        ∧ (b100.kind = none → s.kind = ScaleKind.linear)) :=
  ⟨(c6_make_defaults log2zero bEmpty).1 rfl,
   (c6_make_defaults log2zero b100).2 100 rfl⟩

/-- C2: on every scale produced by the builder, idx_factor is
(ref_max − ref_min)/steps for Linear and (log2 ref_max − log2 ref_min)/steps
for Exp2 with steps = 9, and value_for f clamps the computed native value
(ref_max − f·idx_factor, resp. ref_max / gamma^(f·idx_factor)) against the
device bounds min_value/max_value, not the reference bounds. -/
theorem c2_value_for_formula (log2 : ℚ → ℚ) (powf : ℚ → ℚ → ℚ)
    (b : ScaleBuilder) (s : BrightnessScale) (h : b.make log2 = Except.ok s) :
    STEPS_IN_REFERENCE_RANGE = 9
    ∧ s.idx_factor = (match s.kind with
        | .linear => (s.ref_max - s.ref_min) / STEPS_IN_REFERENCE_RANGE
        | .exp2 _ =>
            (log2 s.ref_max - log2 s.ref_min) / STEPS_IN_REFERENCE_RANGE)
    ∧ (∀ f : ℤ, s.value_for powf f
        = ClampedValue.new (f32ToUsize (match s.kind with
            | .linear => s.ref_max - (f : ℚ) * s.idx_factor
            | .exp2 gamma => s.ref_max / powf gamma ((f : ℚ) * s.idx_factor)))
          s.min_value s.max_value) := by
  refine ⟨rfl, ?_, ?_⟩
  · unfold ScaleBuilder.make at h
    cases hmv : b.max_value with
    | none =>
      rw [hmv] at h
      cases h
    | some m =>
      rw [hmv] at h
      injection h with h'
      subst h'
      cases hk : b.kind.getD ScaleKind.linear with
      | linear =>
        simp [ScaleBuilder.idx_factor, hk, ScaleBuilder.linear_factor]
      | exp2 g =>
        simp [ScaleBuilder.idx_factor, hk, ScaleBuilder.exp2_factor]
  · intro f
    cases hk : s.kind with
    | linear =>
      simp [BrightnessScale.value_for, hk]
    | exp2 g =>
      simp [BrightnessScale.value_for, hk]

/-- C2 witness: the formula instantiated on the scale built from b100, at
step 5. -/
theorem c2_value_for_formula_witness :
    s100.value_for powfone 5
      = ClampedValue.new (f32ToUsize (match s100.kind with
          | .linear => s100.ref_max - ((5 : ℤ) : ℚ) * s100.idx_factor
          | .exp2 gamma =>
              s100.ref_max / powfone gamma (((5 : ℤ) : ℚ) * s100.idx_factor)))
        s100.min_value s100.max_value :=
  (c2_value_for_formula log2zero powfone b100 s100 rfl).2.2 5

/-- Helper: on the [0,100] Linear scale, step 0 maps to Max(100). -/
theorem s100_value_for_zero :
    s100.value_for powfone 0 = ClampedValue.max 100 := by
  simp only [BrightnessScale.value_for, s100, STEPS_IN_REFERENCE_RANGE,
    f32ToUsize, USIZE_MAX, ClampedValue.new]
  norm_num

/-- Helper: on the [0,100] Linear scale, step 9 maps to Min(0): the computed
native value is 100 − 9·(100/9) = 0, which hits the device floor.  (The
program's f32 arithmetic agrees: 9·(100f32/9f32) evaluates to exactly 100.0,
so the cast yields 0 there as well.) -/
theorem s100_value_for_nine :
    s100.value_for powfone 9 = ClampedValue.min 0 := by
  simp only [BrightnessScale.value_for, s100, STEPS_IN_REFERENCE_RANGE,
    f32ToUsize, USIZE_MAX, ClampedValue.new]
  norm_num

/-- Helper: on the [0,100] Linear scale, step −1 computes 111 and clamps to
Max(100). -/
theorem s100_value_for_neg_one :
    s100.value_for powfone (-1) = ClampedValue.max 100 := by
  simp only [BrightnessScale.value_for, s100, STEPS_IN_REFERENCE_RANGE,
    f32ToUsize, USIZE_MAX, ClampedValue.new]
  norm_num

/-- C7 counterexample: on the Linear scale with device bounds [0,100],
reference bounds [0,100] and 9 reference steps, value_for 9 is not
Intermediate(1) as the claim states (it is Min(0)). -/
theorem c7_step9_not_intermediate_one :
    ¬ (s100.value_for powfone 9 = ClampedValue.intermediate 1) := by
  simp [s100_value_for_nine]

/-- C7, amended: on that scale, value_for 0 = Max(100),
value_for 9 = Min(0) (the computed value 0 hits the floor), and
value_for (−1) = Max(100). -/
theorem c7_linear_scale_endpoints :
    ScaleBuilder.make log2zero b100 = Except.ok s100
    ∧ s100.value_for powfone 0 = ClampedValue.max 100
    ∧ s100.value_for powfone 9 = ClampedValue.min 0
    ∧ s100.value_for powfone (-1) = ClampedValue.max 100 :=
  ⟨rfl, s100_value_for_zero, s100_value_for_nine, s100_value_for_neg_one⟩

/-- Helper: n iterated ups subtract n from the level and change nothing
else. -/
theorem upN_level (powf : ℚ → ℚ → ℚ) :
    ∀ (n : ℕ) (s : BrightnessScale),
      BrightnessScale.upN powf n s = { s with level := s.level - (n : ℤ) }
  | 0, s => by
      cases s
      simp [BrightnessScale.upN]
  | n + 1, s => by
      cases s with
      | mk k i mx mn rm rn l =>
        simp [BrightnessScale.upN, BrightnessScale.up, upN_level powf n]
        ring

/-- Helper: n iterated downs add n to the level and change nothing else. -/
theorem downN_level (powf : ℚ → ℚ → ℚ) :
    ∀ (n : ℕ) (s : BrightnessScale),
      BrightnessScale.downN powf n s = { s with level := s.level + (n : ℤ) }
  | 0, s => by
      cases s
      simp [BrightnessScale.downN]
  | n + 1, s => by
      cases s with
      | mk k i mx mn rm rn l =>
        simp [BrightnessScale.downN, BrightnessScale.down, downN_level powf n]
        ring

/-- Helper: n downs followed by n ups restore the scale exactly. -/
theorem up_down_roundtrip (powf : ℚ → ℚ → ℚ) (s : BrightnessScale) (n : ℕ) :
    BrightnessScale.upN powf n (BrightnessScale.downN powf n s) = s := by
  rw [downN_level, upN_level]
  cases s
  simp

/-- C8: up() subtracts one from the stored level and down() adds one, each
returning the fresh clamp of the new level; hence n downs followed by n ups
restore the scale, and in particular its get_brightness value. -/
theorem c8_up_down_inverse (powf : ℚ → ℚ → ℚ) (s : BrightnessScale) :
    (s.up powf).1 = { s with level := s.level - 1 }
    ∧ (s.up powf).2
        = BrightnessScale.value_for powf { s with level := s.level - 1 }
            (s.level - 1)
    ∧ (s.down powf).1 = { s with level := s.level + 1 }
    ∧ (s.down powf).2
        = BrightnessScale.value_for powf { s with level := s.level + 1 }
            (s.level + 1)
    ∧ (∀ n : ℕ,
        BrightnessScale.upN powf n (BrightnessScale.downN powf n s) = s)
    ∧ (∀ n : ℕ,
        (BrightnessScale.upN powf n
            (BrightnessScale.downN powf n s)).get_brightness powf
          = s.get_brightness powf) :=
  ⟨rfl, rfl, rfl, rfl, up_down_roundtrip powf s,
   fun n => by rw [up_down_roundtrip powf s n]⟩

/-! ## src/main.rs — Display, control methods, dispatch

Hardware interaction is modelled by an abstract environment of pure
functions (file reads/writes and the two spawned helper programs), and each
operation additionally returns the list of hardware actions it attempts. -/

inductive ControlMethod where
  | sysFS (p : String)
  | ddcUtil (display : Nat)
  | swayDPMS (name : String)
deriving DecidableEq

structure Display where
  dpms_control : Option ControlMethod
  brightness_control : Option ControlMethod
  scale : BrightnessScale
  name : String
deriving DecidableEq

/-- Abstract hardware environment: results of sysfs reads/writes and of
spawning the ddcutil / swaymsg helper processes. -/
structure Env where
  readFile : String → Except Unit String
  writeFile : String → String → Except Unit Unit
  ddcutilSet : Nat → Nat → Except Unit Unit
  swaymsgPower : String → Bool → Except Unit Unit

/-- A hardware action attempted by a display operation. -/
inductive HwOp where
  | fsWrite (p : String) (contents : String)
  | ddcSetBrightness (display : Nat) (v : Nat)
  | swayPower (name : String) (onState : Bool)
deriving DecidableEq

/-- Rust: ddcutil_set_brightness — spawns ddcutil setvcp; a spawn failure
propagates, the child's exit status is ignored. -/
def ddcutil_set_brightness (env : Env) (display : Nat) (v : Nat) :
    Except Unit Unit × List HwOp :=
  (env.ddcutilSet display v, [HwOp.ddcSetBrightness display v])

/-- Rust: dpms_sway_turn_on. -/
def dpms_sway_turn_on (env : Env) (name : String) :
    Except Unit Unit × List HwOp :=
  (env.swaymsgPower name true, [HwOp.swayPower name true])

/-- Rust: dpms_sway_turn_off. -/
def dpms_sway_turn_off (env : Env) (name : String) :
    Except Unit Unit × List HwOp :=
  (env.swaymsgPower name false, [HwOp.swayPower name false])

namespace Display

/-- Rust: Display::is_on — reads the dpms sysfs file; contents "0\n" means
on.  Displays without a sysfs dpms control report NoBacklightStatus. -/
def is_on (d : Display) (env : Env) : Except Error Bool :=
  match d.dpms_control with
  | some (.sysFS p) =>
    match env.readFile p with
    | .ok x => .ok (x == "0\n")
    | .error _ => .error Error.ioError
  | _ => .error Error.noBacklightStatus

/-- Rust: Display::set_brightness — sysfs write or ddcutil call; a display
whose brightness control is absent (or is the sway method, unusable for
brightness) logs and returns Ok without touching hardware. -/
def set_brightness (d : Display) (v : ℕ) (env : Env) :
    Except Unit Unit × List HwOp :=
  match d.brightness_control with
  | some (.sysFS p) =>
    (env.writeFile p (toString v), [HwOp.fsWrite p (toString v)])
  | some (.ddcUtil disp) => ddcutil_set_brightness env disp v
  | _ => (.ok (), [])

/-- Rust: Display::brightness_up — steps the scale first, then attempts the
hardware write of the freshly clamped value. -/
def brightness_up (powf : ℚ → ℚ → ℚ) (d : Display) (env : Env) :
    Display × Except Unit (ClampedValue ℕ) × List HwOp :=
  let p := d.scale.up powf
  let d' := { d with scale := p.1 }
  let r := d'.set_brightness p.2.value env
  (d', r.1.map (fun _ => p.2), r.2)

/-- Rust: Display::brightness_down. -/
def brightness_down (powf : ℚ → ℚ → ℚ) (d : Display) (env : Env) :
    Display × Except Unit (ClampedValue ℕ) × List HwOp :=
  let p := d.scale.down powf
  let d' := { d with scale := p.1 }
  let r := d'.set_brightness p.2.value env
  (d', r.1.map (fun _ => p.2), r.2)

/-- Rust: Display::get_brightness. -/
def get_brightness (powf : ℚ → ℚ → ℚ) (d : Display) : ClampedValue ℕ :=
  d.scale.get_brightness powf

/-- Rust: Display::turn_on — sysfs write of "0" or sway call; a display
whose dpms control is absent (or is the ddcutil method, unusable for power)
logs and returns Ok without touching hardware. -/
def turn_on (d : Display) (env : Env) : Except Unit Unit × List HwOp :=
  match d.dpms_control with
  | some (.sysFS p) => (env.writeFile p "0", [HwOp.fsWrite p "0"])
  | some (.swayDPMS name) => dpms_sway_turn_on env name
  | _ => (.ok (), [])

/-- Rust: Display::turn_off — sysfs write of "4" or sway call. -/
def turn_off (d : Display) (env : Env) : Except Unit Unit × List HwOp :=
  match d.dpms_control with
  | some (.sysFS p) => (env.writeFile p "4", [HwOp.fsWrite p "4"])
  | some (.swayDPMS name) => dpms_sway_turn_off env name
  | _ => (.ok (), [])

end Display

/-- A per-display operation issued by the dispatch layer. -/
inductive Call where
  | turnOn (name : String)
  | turnOff (name : String)
  | brightnessUp (name : String)
  | brightnessDown (name : String)
deriving DecidableEq

/-- Rust: turn_on_all_displays — the for-loop, with the issued calls and
attempted hardware actions made explicit. -/
def turn_on_all_displays (env : Env) :
    List Display → List Display × List Call × List HwOp
  | [] => ([], [], [])
  | d :: rest =>
    let r := d.turn_on env
    let t := turn_on_all_displays env rest
    (d :: t.1, Call.turnOn d.name :: t.2.1, r.2 ++ t.2.2)

/-- Rust: turn_off_all_displays. -/
def turn_off_all_displays (env : Env) :
    List Display → List Display × List Call × List HwOp
  | [] => ([], [], [])
  | d :: rest =>
    let r := d.turn_off env
    let t := turn_off_all_displays env rest
    (d :: t.1, Call.turnOff d.name :: t.2.1, r.2 ++ t.2.2)

/-- Rust: toggle_all_displays — inspects only the first display to pick the
group direction; a failed read aborts the whole toggle. -/
def toggle_all_displays (env : Env) (displays : List Display) :
    List Display × List Call × List HwOp :=
  match displays with
  | [] => ([], [], [])
  | lead_display :: _ =>
    match lead_display.is_on env with
    | .ok true => turn_off_all_displays env displays
    | .ok false => turn_on_all_displays env displays
    | .error _ => (displays, [], [])

/-- Rust: the for-loop body of all_brightness_up. -/
def brightness_up_loop (powf : ℚ → ℚ → ℚ) (env : Env) :
    List Display → List Display × List Call × List HwOp
  | [] => ([], [], [])
  | d :: rest =>
    let r := d.brightness_up powf env
    let t := brightness_up_loop powf env rest
    (r.1 :: t.1, Call.brightnessUp d.name :: t.2.1, r.2.2 ++ t.2.2)

/-- Rust: the for-loop body of all_brightness_down. -/
def brightness_down_loop (powf : ℚ → ℚ → ℚ) (env : Env) :
    List Display → List Display × List Call × List HwOp
  | [] => ([], [], [])
  | d :: rest =>
    let r := d.brightness_down powf env
    let t := brightness_down_loop powf env rest
    (r.1 :: t.1, Call.brightnessDown d.name :: t.2.1, r.2.2 ++ t.2.2)

/-- Rust: all_brightness_up — group guard, then the fan-out loop. -/
def all_brightness_up (powf : ℚ → ℚ → ℚ) (env : Env)
    (displays : List Display) : List Display × List Call × List HwOp :=
  if displays.any (fun d => !(d.get_brightness powf).is_max) then
    brightness_up_loop powf env displays
  else
    (displays, [], [])

/-- Rust: all_brightness_down. -/
def all_brightness_down (powf : ℚ → ℚ → ℚ) (env : Env)
    (displays : List Display) : List Display × List Call × List HwOp :=
  if displays.any (fun d => !(d.get_brightness powf).is_min) then
    brightness_down_loop powf env displays
  else
    (displays, [], [])

/-! ### Dispatch loop lemmas -/

/-- Helper: the up fan-out loop steps every display's level down by one. -/
theorem brightness_up_loop_displays (powf : ℚ → ℚ → ℚ) (env : Env) :
    ∀ ds : List Display,
      (brightness_up_loop powf env ds).1
        = ds.map (fun d =>
            { d with scale := { d.scale with level := d.scale.level - 1 } })
  | [] => rfl
  | d :: rest => by
      simp [brightness_up_loop, Display.brightness_up, BrightnessScale.up,
        brightness_up_loop_displays powf env rest]

/-- Helper: the up fan-out loop issues one up-call per display, in order. -/
theorem brightness_up_loop_calls (powf : ℚ → ℚ → ℚ) (env : Env) :
    ∀ ds : List Display,
      (brightness_up_loop powf env ds).2.1
        = ds.map (fun d => Call.brightnessUp d.name)
  | [] => rfl
  | d :: rest => by
      simp [brightness_up_loop, brightness_up_loop_calls powf env rest]

/-- Helper: the down fan-out loop steps every display's level up by one. -/
theorem brightness_down_loop_displays (powf : ℚ → ℚ → ℚ) (env : Env) :
    ∀ ds : List Display,
      (brightness_down_loop powf env ds).1
        = ds.map (fun d =>
            { d with scale := { d.scale with level := d.scale.level + 1 } })
  | [] => rfl
  | d :: rest => by
      simp [brightness_down_loop, Display.brightness_down,
        BrightnessScale.down, brightness_down_loop_displays powf env rest]

/-- Helper: the down fan-out loop issues one down-call per display. -/
theorem brightness_down_loop_calls (powf : ℚ → ℚ → ℚ) (env : Env) :
    ∀ ds : List Display,
      (brightness_down_loop powf env ds).2.1
        = ds.map (fun d => Call.brightnessDown d.name)
  | [] => rfl
  | d :: rest => by
      simp [brightness_down_loop, brightness_down_loop_calls powf env rest]

/-- Helper: turn_off_all leaves displays unchanged and issues one off-call
per display. -/
theorem turn_off_all_displays_eq (env : Env) :
    ∀ ds : List Display,
      (turn_off_all_displays env ds).1 = ds
      ∧ (turn_off_all_displays env ds).2.1
          = ds.map (fun d => Call.turnOff d.name)
  | [] => ⟨rfl, rfl⟩
  | d :: rest => by
      have ih := turn_off_all_displays_eq env rest
      simp [turn_off_all_displays, ih.1, ih.2]

/-- Helper: turn_on_all leaves displays unchanged and issues one on-call
per display. -/
theorem turn_on_all_displays_eq (env : Env) :
    ∀ ds : List Display,
      (turn_on_all_displays env ds).1 = ds
      ∧ (turn_on_all_displays env ds).2.1
          = ds.map (fun d => Call.turnOn d.name)
  | [] => ⟨rfl, rfl⟩
  | d :: rest => by
      have ih := turn_on_all_displays_eq env rest
      simp [turn_on_all_displays, ih.1, ih.2]

/-- C3: all-target up (resp. down) issues a call to every display —
including ones individually at their bound — iff some display is not at Max
(resp. Min); when every display is at the bound, nothing is called and no
state changes. -/
theorem c3_all_brightness_group_guard (powf : ℚ → ℚ → ℚ) (env : Env)
    (ds : List Display) :
    (ds.any (fun d => !(d.get_brightness powf).is_max) = true →
        (all_brightness_up powf env ds).2.1
            = ds.map (fun d => Call.brightnessUp d.name)
        ∧ (all_brightness_up powf env ds).1
            = ds.map (fun d =>
                { d with scale := { d.scale with level := d.scale.level - 1 } }))
    ∧ (ds.any (fun d => !(d.get_brightness powf).is_max) = false →
        all_brightness_up powf env ds = (ds, [], []))
    ∧ (ds.any (fun d => !(d.get_brightness powf).is_min) = true →
        (all_brightness_down powf env ds).2.1
            = ds.map (fun d => Call.brightnessDown d.name)
        ∧ (all_brightness_down powf env ds).1
            = ds.map (fun d =>
                { d with scale := { d.scale with level := d.scale.level + 1 } }))
    ∧ (ds.any (fun d => !(d.get_brightness powf).is_min) = false →
        all_brightness_down powf env ds = (ds, [], [])) := by
  refine ⟨fun h => ?_, fun h => ?_, fun h => ?_, fun h => ?_⟩
  · rw [all_brightness_up, if_pos h]
    exact ⟨brightness_up_loop_calls powf env ds,
      brightness_up_loop_displays powf env ds⟩
  · rw [all_brightness_up, if_neg (by simp [h])]
  · rw [all_brightness_down, if_pos h]
    exact ⟨brightness_down_loop_calls powf env ds,
      brightness_down_loop_displays powf env ds⟩
  · rw [all_brightness_down, if_neg (by simp [h])]

/-! ### Concrete displays and environments for witnesses -/

/-- Environment whose reads fail and whose writes succeed. -/
def envNoop : Env :=
  { readFile := fun _ => .error (), writeFile := fun _ _ => .ok (),
    ddcutilSet := fun _ _ => .ok (), swaymsgPower := fun _ _ => .ok () }

/-- Environment reporting dpms state "0\n" (display on). -/
def envOn : Env := { envNoop with readFile := fun _ => .ok "0\n" }

/-- Environment reporting dpms state "4\n" (display off). -/
def envOff : Env := { envNoop with readFile := fun _ => .ok "4\n" }

/-- Display on the [0,100] scale at the default level (brightness 55,
Intermediate). -/
def dMid : Display :=
  { dpms_control := none, brightness_control := none, scale := s100,
    name := "mid" }

/-- Display on the [0,100] scale at level 0 (brightness Max). -/
def dTop : Display :=
  { dpms_control := none, brightness_control := none,
    scale := { s100 with level := 0 }, name := "top" }

/-- Display on the [0,100] scale at level 9 (brightness Min). -/
def dBot : Display :=
  { dpms_control := none, brightness_control := none,
    scale := { s100 with level := 9 }, name := "bot" }

/-- Display with a sysfs dpms control. -/
def dSys : Display :=
  { dpms_control := some (.sysFS "/sys/class/drm/card0-eDP-1/dpms"),
    brightness_control := none, scale := s100, name := "lead" }

/-- Helper: dMid sits strictly inside its bounds. -/
theorem dMid_get_brightness :
    dMid.get_brightness powfone = ClampedValue.intermediate 55 := by
  simp only [Display.get_brightness, BrightnessScale.get_brightness,
    BrightnessScale.value_for, dMid, s100, STEPS_IN_REFERENCE_RANGE,
    DEFAULT_LEVEL, f32ToUsize, USIZE_MAX, ClampedValue.new]
  norm_num
  rfl

/-- Helper: dTop sits at its ceiling. -/
theorem dTop_get_brightness :
    dTop.get_brightness powfone = ClampedValue.max 100 := by
  simp only [Display.get_brightness, BrightnessScale.get_brightness,
    BrightnessScale.value_for, dTop, s100, STEPS_IN_REFERENCE_RANGE,
    f32ToUsize, USIZE_MAX, ClampedValue.new]
  norm_num

/-- Helper: dBot sits at its floor. -/
theorem dBot_get_brightness :
    dBot.get_brightness powfone = ClampedValue.min 0 := by
  simp only [Display.get_brightness, BrightnessScale.get_brightness,
    BrightnessScale.value_for, dBot, s100, STEPS_IN_REFERENCE_RANGE,
    f32ToUsize, USIZE_MAX, ClampedValue.new]
  norm_num

/-- C3 witness: a group with one Intermediate and one Max display fans the
up-call out to both; a group that is all-Max (resp. all-Min) receives no up
(resp. down) calls; a group with room fans the down-call out. -/
theorem c3_all_brightness_group_guard_witness :
    ((all_brightness_up powfone envNoop [dMid, dTop]).2.1
        = [dMid, dTop].map (fun d => Call.brightnessUp d.name)
      ∧ (all_brightness_up powfone envNoop [dMid, dTop]).1
          = [dMid, dTop].map (fun d =>
              { d with scale := { d.scale with level := d.scale.level - 1 } }))
    ∧ all_brightness_up powfone envNoop [dTop] = ([dTop], [], [])
    ∧ ((all_brightness_down powfone envNoop [dMid, dBot]).2.1
        = [dMid, dBot].map (fun d => Call.brightnessDown d.name)
      ∧ (all_brightness_down powfone envNoop [dMid, dBot]).1
          = [dMid, dBot].map (fun d =>
              { d with scale := { d.scale with level := d.scale.level + 1 } }))
    ∧ all_brightness_down powfone envNoop [dBot] = ([dBot], [], []) :=
  ⟨(c3_all_brightness_group_guard powfone envNoop [dMid, dTop]).1
      (by simp [dMid_get_brightness, dTop_get_brightness,
        ClampedValue.is_max]),
   (c3_all_brightness_group_guard powfone envNoop [dTop]).2.1
      (by simp [dTop_get_brightness, ClampedValue.is_max]),
   (c3_all_brightness_group_guard powfone envNoop [dMid, dBot]).2.2.1
      (by simp [dMid_get_brightness, dBot_get_brightness,
        ClampedValue.is_min]),
   (c3_all_brightness_group_guard powfone envNoop [dBot]).2.2.2
      (by simp [dBot_get_brightness, ClampedValue.is_min])⟩

/-- C5: toggle-all on a non-empty collection is decided solely by the first
display's power read: read Ok(true) turns every display off, Ok(false)
turns every display on, and a failed read issues no calls and leaves every
display unchanged. -/
theorem c5_toggle_all_lead_display (env : Env) (lead : Display)
    (rest : List Display) :
    (lead.is_on env = .ok true →
        (toggle_all_displays env (lead :: rest)).1 = lead :: rest
        ∧ (toggle_all_displays env (lead :: rest)).2.1
            = (lead :: rest).map (fun d => Call.turnOff d.name))
    ∧ (lead.is_on env = .ok false →
        (toggle_all_displays env (lead :: rest)).1 = lead :: rest
        ∧ (toggle_all_displays env (lead :: rest)).2.1
            = (lead :: rest).map (fun d => Call.turnOn d.name))
    ∧ (∀ e, lead.is_on env = .error e →
        toggle_all_displays env (lead :: rest) = (lead :: rest, [], [])) := by
  refine ⟨fun h => ?_, fun h => ?_, fun e h => ?_⟩
  · have he := turn_off_all_displays_eq env (lead :: rest)
    rw [toggle_all_displays, h]
    exact he
  · have he := turn_on_all_displays_eq env (lead :: rest)
    rw [toggle_all_displays, h]
    exact he
  · rw [toggle_all_displays, h]

/-- C5 witness: the three branches exercised on a single sysfs display with
environments reporting on, off, and a read failure. -/
theorem c5_toggle_all_lead_display_witness :
    ((toggle_all_displays envOn [dSys]).1 = [dSys]
      ∧ (toggle_all_displays envOn [dSys]).2.1
          = [dSys].map (fun d => Call.turnOff d.name))
    ∧ ((toggle_all_displays envOff [dSys]).1 = [dSys]
      ∧ (toggle_all_displays envOff [dSys]).2.1
          = [dSys].map (fun d => Call.turnOn d.name))
    ∧ toggle_all_displays envNoop [dSys] = ([dSys], [], []) :=
  ⟨(c5_toggle_all_lead_display envOn dSys []).1 rfl,
   (c5_toggle_all_lead_display envOff dSys []).2.1 rfl,
   (c5_toggle_all_lead_display envNoop dSys []).2.2 Error.ioError rfl⟩

/-- C9: a display lacking the control method an operation needs silently
skips the operation: no hardware action is attempted and Ok is returned
(brightness writes need a sysfs or ddcutil brightness control; power on/off
needs a sysfs or sway dpms control). -/
theorem c9_capability_missing_is_noop (d : Display) (env : Env) (v : ℕ) :
    ((d.brightness_control = none
        ∨ ∃ n, d.brightness_control = some (ControlMethod.swayDPMS n)) →
      d.set_brightness v env = (Except.ok (), []))
    ∧ ((d.dpms_control = none
        ∨ ∃ n, d.dpms_control = some (ControlMethod.ddcUtil n)) →
      d.turn_on env = (Except.ok (), [])
      ∧ d.turn_off env = (Except.ok (), [])) := by
  constructor
  · rintro (h | ⟨n, h⟩) <;> simp [Display.set_brightness, h]
  · rintro (h | ⟨n, h⟩) <;>
      simp [Display.turn_on, Display.turn_off, h]

/-- C9 witness: a display with no control methods at all ignores both a
brightness write and both power operations. -/
theorem c9_capability_missing_is_noop_witness :
    dMid.set_brightness 50 envNoop = (Except.ok (), [])
    ∧ (dMid.turn_on envNoop = (Except.ok (), [])
      ∧ dMid.turn_off envNoop = (Except.ok (), [])) :=
  ⟨(c9_capability_missing_is_noop dMid envNoop 50).1 (Or.inl rfl),
   (c9_capability_missing_is_noop dMid envNoop 50).2 (Or.inl rfl)⟩

/-- C10: brightness_up (resp. down) always mutates the stored level by
exactly one — regardless of the environment and of whether the display has a
brightness control method — and every other scale field is unchanged; the
level itself is never clamped. -/
theorem c10_level_mutation_unconditional (powf : ℚ → ℚ → ℚ) (d : Display)
    (env : Env) :
    ((d.brightness_up powf env).1.scale.level = d.scale.level - 1)
    ∧ ((d.brightness_up powf env).1.scale.kind = d.scale.kind)
    ∧ ((d.brightness_up powf env).1.scale.idx_factor = d.scale.idx_factor)
    ∧ ((d.brightness_up powf env).1.scale.max_value = d.scale.max_value)
    ∧ ((d.brightness_up powf env).1.scale.min_value = d.scale.min_value)
    ∧ ((d.brightness_up powf env).1.scale.ref_max = d.scale.ref_max)
    ∧ ((d.brightness_up powf env).1.scale.ref_min = d.scale.ref_min)
    ∧ ((d.brightness_up powf env).1.name = d.name)
    ∧ ((d.brightness_up powf env).1.brightness_control
        = d.brightness_control)
    ∧ ((d.brightness_up powf env).1.dpms_control = d.dpms_control)
    ∧ ((d.brightness_down powf env).1.scale.level = d.scale.level + 1)
    ∧ ((d.brightness_down powf env).1.scale.kind = d.scale.kind)
    ∧ ((d.brightness_down powf env).1.scale.idx_factor = d.scale.idx_factor)
    ∧ ((d.brightness_down powf env).1.scale.max_value = d.scale.max_value)
    ∧ ((d.brightness_down powf env).1.scale.min_value = d.scale.min_value)
    ∧ ((d.brightness_down powf env).1.scale.ref_max = d.scale.ref_max)
    ∧ ((d.brightness_down powf env).1.scale.ref_min = d.scale.ref_min) :=
  ⟨rfl, rfl, rfl, rfl, rfl, rfl, rfl, rfl, rfl, rfl, rfl, rfl, rfl, rfl,
   rfl, rfl, rfl⟩

/-! ## src/lib.rs — the nom command grammar, over byte lists -/

/-- Raw command input: a list of bytes. -/
abbrev Bytes := List Nat

/-- Bytes of an ASCII string literal. -/
def strBytes (s : String) : Bytes := s.data.map Char.toNat

/-- ASCII lower-casing of one byte, as used by nom's tag_no_case. -/
def lowerByte (b : Nat) : Nat := if 65 ≤ b ∧ b ≤ 90 then b + 32 else b

inductive TargetDisplay where
  | display (name : Bytes)
  | all
deriving DecidableEq

inductive BacklightCommand where
  | SwaySock (p : Bytes)
  | On (d : TargetDisplay)
  | Off (d : TargetDisplay)
  | Up (d : TargetDisplay)
  | Down (d : TargetDisplay)
  | Toggle (d : TargetDisplay)
  | Max (d : TargetDisplay)
  | Min (d : TargetDisplay)
  | Default (d : TargetDisplay)
deriving DecidableEq

namespace parsing

/-- A nom IResult: none is a parse error, some is (remaining input, value). -/
abbrev ParseResult (α : Type) := Option (Bytes × α)

/-- nom alt of two parsers: first success wins. -/
def alt2 {α : Type} (p q : Bytes → ParseResult α) (input : Bytes) :
    ParseResult α :=
  match p input with
  | some r => some r
  | none => q input

/-- nom map combinator. -/
def mapP {α β : Type} (p : Bytes → ParseResult α) (f : α → β)
    (input : Bytes) : ParseResult β :=
  match p input with
  | some r => some (r.1, f r.2)
  | none => none

/-- nom complete tag_no_case: succeeds iff the tag is an ASCII
case-insensitive prefix of the input. -/
def tag_no_case (t : Bytes) (input : Bytes) : ParseResult Bytes :=
  if t.length ≤ input.length
      ∧ (input.take t.length).map lowerByte = t.map lowerByte then
    some (input.drop t.length, input.take t.length)
  else
    none

/-- Rust: parsing::is_space. -/
def is_space (c : Nat) : Bool := c == 32

/-- Rust: parsing::space0 — take_while is_space; never fails. -/
def space0 (input : Bytes) : ParseResult Unit :=
  some (input.dropWhile is_space, ())

/-- Rust: parsing::not_space — complete take_till is_space; never fails and
may match the empty slice. -/
def not_space (input : Bytes) : ParseResult Bytes :=
  some (input.dropWhile (fun c => !is_space c),
    input.takeWhile (fun c => !is_space c))

/-- nom rest: consumes the whole input. -/
def restOf (input : Bytes) : ParseResult Bytes :=
  some ([], input)

/-- Rust: parsing::token = alt((not_space, rest)). -/
def token (input : Bytes) : ParseResult Bytes :=
  alt2 not_space restOf input

/-- Rust: parsing::all_displays. -/
def all_displays (input : Bytes) : ParseResult TargetDisplay :=
  mapP (tag_no_case (strBytes "all")) (fun _ => TargetDisplay.all) input

/-- Rust: parsing::specific_display. -/
def specific_display (input : Bytes) : ParseResult TargetDisplay :=
  mapP token (fun t => TargetDisplay.display t) input

/-- Rust: parsing::display. -/
def display (input : Bytes) : ParseResult TargetDisplay :=
  alt2 all_displays specific_display input

/-- Rust: parsing::path — consumes the entire input as a path. -/
def path (input : Bytes) : ParseResult Bytes :=
  some ([], input)

/-- nom separated_pair. -/
def separated_pair {α β γ : Type} (p1 : Bytes → ParseResult α)
    (sep : Bytes → ParseResult β) (p2 : Bytes → ParseResult γ)
    (input : Bytes) : ParseResult (α × γ) :=
  match p1 input with
  | none => none
  | some (i1, a) =>
    match sep i1 with
    | none => none
    | some (i2, _) =>
      match p2 i2 with
      | none => none
      | some (i3, c) => some (i3, (a, c))

/-- Rust: parsing::on_command. -/
def on_command (input : Bytes) : ParseResult BacklightCommand :=
  mapP (separated_pair (tag_no_case (strBytes "on")) space0 display)
    (fun r => BacklightCommand.On r.2) input

/-- Rust: parsing::off_command. -/
def off_command (input : Bytes) : ParseResult BacklightCommand :=
  mapP (separated_pair (tag_no_case (strBytes "off")) space0 display)
    (fun r => BacklightCommand.Off r.2) input

/-- Rust: parsing::up_command. -/
def up_command (input : Bytes) : ParseResult BacklightCommand :=
  mapP (separated_pair (tag_no_case (strBytes "up")) space0 display)
    (fun r => BacklightCommand.Up r.2) input

/-- Rust: parsing::down_command. -/
def down_command (input : Bytes) : ParseResult BacklightCommand :=
  mapP (separated_pair (tag_no_case (strBytes "down")) space0 display)
    (fun r => BacklightCommand.Down r.2) input

/-- Rust: parsing::toggle_command. -/
def toggle_command (input : Bytes) : ParseResult BacklightCommand :=
  mapP (separated_pair (tag_no_case (strBytes "toggle")) space0 display)
    (fun r => BacklightCommand.Toggle r.2) input

/-- Rust: parsing::swaysock_command. -/
def swaysock_command (input : Bytes) : ParseResult BacklightCommand :=
  mapP (separated_pair (tag_no_case (strBytes "swaysock")) space0 path)
    (fun r => BacklightCommand.SwaySock r.2) input

/-- Rust: parsing::max_command. -/
def max_command (input : Bytes) : ParseResult BacklightCommand :=
  mapP (separated_pair (tag_no_case (strBytes "max")) space0 display)
    (fun r => BacklightCommand.Max r.2) input

/-- Rust: parsing::min_command. -/
def min_command (input : Bytes) : ParseResult BacklightCommand :=
  mapP (separated_pair (tag_no_case (strBytes "min")) space0 display)
    (fun r => BacklightCommand.Min r.2) input

/-- Rust: parsing::reference_command (verb "default"). -/
def reference_command (input : Bytes) : ParseResult BacklightCommand :=
  mapP (separated_pair (tag_no_case (strBytes "default")) space0 display)
    (fun r => BacklightCommand.Default r.2) input

/-- The alt over the nine verb forms, in source order. -/
def command_alt : Bytes → ParseResult BacklightCommand :=
  alt2 swaysock_command (alt2 toggle_command (alt2 down_command
    (alt2 up_command (alt2 off_command (alt2 on_command
      (alt2 max_command (alt2 min_command reference_command)))))))

/-- Rust: parsing::parse_command — any leftover input is discarded. -/
def parse_command (input : Bytes) : Option BacklightCommand :=
  match command_alt input with
  | some r => some r.2
  | none => none

/-- The nine recognized verb keywords, in the order alt tries them. -/
def verbs : List Bytes :=
  [strBytes "swaysock", strBytes "toggle", strBytes "down", strBytes "up",
   strBytes "off", strBytes "on", strBytes "max", strBytes "min",
   strBytes "default"]

/-- A tag is an ASCII case-insensitive prefix of the input. -/
def ciStarts (t input : Bytes) : Bool :=
  decide (t.length ≤ input.length
    ∧ (input.take t.length).map lowerByte = t.map lowerByte)

end parsing

namespace parsing

/-- Helper: tag_no_case succeeds exactly when the tag is a case-insensitive
prefix of the input. -/
theorem tag_no_case_isSome (t i : Bytes) :
    (tag_no_case t i).isSome = ciStarts t i := by
  unfold tag_no_case ciStarts
  split_ifs with h
  · exact (decide_eq_true h).symm
  · exact (decide_eq_false h).symm

/-- Helper: mapP succeeds exactly when the underlying parser does. -/
theorem mapP_isSome {α β : Type} (p : Bytes → ParseResult α) (f : α → β)
    (i : Bytes) : (mapP p f i).isSome = (p i).isSome := by
  unfold mapP
  cases h : p i <;> simp [h]

/-- Helper: alt2 succeeds exactly when either branch does. -/
theorem alt2_isSome {α : Type} (p q : Bytes → ParseResult α) (i : Bytes) :
    (alt2 p q i).isSome = ((p i).isSome || (q i).isSome) := by
  unfold alt2
  cases h : p i <;> simp [h]

/-- Helper: the display parser never fails (an empty token is accepted). -/
theorem display_isSome (i : Bytes) : (display i).isSome = true := by
  simp only [display, alt2]
  cases h : all_displays i with
  | none => simp [h, specific_display, mapP, token, alt2, not_space]
  | some r => simp [h]

/-- Helper: a verb-then-display form succeeds exactly when its verb tag
matches, because space0 and display are total. -/
theorem sep_display_isSome (v i : Bytes) :
    (separated_pair (tag_no_case v) space0 display i).isSome
      = (tag_no_case v i).isSome := by
  cases h : tag_no_case v i with
  | none => simp [separated_pair, h]
  | some r =>
    obtain ⟨i1, a⟩ := r
    simp only [separated_pair, h, space0]
    have hd := display_isSome (List.dropWhile is_space i1)
    cases hdm : display (List.dropWhile is_space i1) with
    | none =>
      rw [hdm] at hd
      cases hd
    | some r2 => simp [hdm]

/-- Helper: the swaysock form succeeds exactly when its verb tag matches,
because space0 and path are total. -/
theorem sep_path_isSome (v i : Bytes) :
    (separated_pair (tag_no_case v) space0 path i).isSome
      = (tag_no_case v i).isSome := by
  cases h : tag_no_case v i with
  | none => simp [separated_pair, h]
  | some r =>
    obtain ⟨i1, a⟩ := r
    simp [separated_pair, h, space0, path]

end parsing

/-- C4 counterexample: the bare verb "on", with no argument at all, decodes
successfully (as On of the empty display name) — the claim says a verb with
a missing argument must fail.  The argument parser is total: take_till can
match the empty slice. -/
theorem c4_verb_without_argument_parses :
    parsing.parse_command (strBytes "on")
      = some (BacklightCommand.On (TargetDisplay.display [])) := by
  rfl

/-- C4, amended: decoding succeeds iff one of the nine recognized verbs is a
case-insensitive byte prefix of the input; the argument never causes
failure (a missing argument yields an empty display name, and trailing
bytes beyond the match are discarded). -/
theorem c4_parse_succeeds_iff_verb_matches (i : Bytes) :
    (parsing.parse_command i).isSome
      = parsing.verbs.any (fun v => parsing.ciStarts v i) := by
  have hp : (parsing.parse_command i).isSome
      = (parsing.command_alt i).isSome := by
    unfold parsing.parse_command
    cases h : parsing.command_alt i <;> simp [h]
  rw [hp]
  simp only [parsing.command_alt, parsing.alt2_isSome, parsing.swaysock_command,
    parsing.toggle_command, parsing.down_command, parsing.up_command,
    parsing.off_command, parsing.on_command, parsing.max_command,
    parsing.min_command, parsing.reference_command, parsing.mapP_isSome,
    parsing.sep_display_isSome, parsing.sep_path_isSome,
    parsing.tag_no_case_isSome]
  simp [parsing.verbs]

end Backlightd
